import Mathlib

/-!
Shallow embedding of `final_site/langgraph_agent.py` (class `LangGraphEcommerceAgent`):
the conversation state machine (`_understand_query_node`, `_generate_sql_node`,
`_execute_query_node`, `_format_response_node`, `_handle_error_node`, the conditional
edge functions and `_build_graph`), the history store (`save_message`,
`load_session_history`, `get_recent_context_from_db`, `delete_session`) and the
per-turn wrapper `process_message`.

Python strings are modelled as Lean `String` (operations are carried out on the
underlying character list so that everything is kernel-computable); `pd.DataFrame`
as a column list plus a row list of string cells; the sqlite history database as an
in-memory record of session rows and message rows; the LLM call and `pd.read_sql`
as oracles returning `Except` (an `Except.error` models a raised Python exception);
the sqlite layer under `save_message` / `delete_session` likewise as a backend that
may fail, and the code of those functions does not catch anything (`delete_session`
wraps its backend in try/except, `save_message` does not).
-/

namespace EcomAgent

/-- In-memory chat messages (LangChain `HumanMessage` / `AIMessage` / `SystemMessage`). -/
inductive Msg where
  | human (content : String)
  | ai (content : String)
  | system (content : String)
  deriving DecidableEq, Repr

/-- The `.content` attribute of a message. -/
def msgContent : Msg → String
  | .human c => c
  | .ai c => c
  | .system c => c

/-- Test `isinstance(msg, SystemMessage)`. -/
def isSystemMsg : Msg → Bool
  | .system _ => true
  | _ => false

/-- Test `isinstance(msg, HumanMessage)`. -/
def isHumanMsg : Msg → Bool
  | .human _ => true
  | _ => false

/-- Role label used by `_generate_sql_node`: `"User" if isinstance(msg, HumanMessage) else "Assistant"`. -/
def roleName (m : Msg) : String :=
  if isHumanMsg m then "User" else "Assistant"

/-- A pandas DataFrame: ordered column names and ordered rows of cells (cells as strings). -/
structure DataFrame where
  cols : List String
  rows : List (List String)
  deriving DecidableEq, Repr

/-- An empty `pd.DataFrame()`. -/
def emptyDF : DataFrame := ⟨[], []⟩

/-- The `ConversationState` TypedDict threaded through the graph. -/
structure ConvState where
  messages : List Msg
  databasePath : String
  databaseSchema : List (String × List String)
  lastSql : String
  lastResult : Option DataFrame
  sessionId : String
  queryCount : Nat
  error : String
  context : String
  deriving DecidableEq, Repr

/- ### String helpers (Python string operations, on the character list) -/

/-- Python `l[-n:]`: the last `n` elements (all of them when fewer). -/
def takeLast (n : Nat) (l : List α) : List α := l.drop (l.length - n)

/-- Python `str.strip()`: drop whitespace from both ends. -/
def pyStripChars (s : List Char) : List Char :=
  ((s.dropWhile Char.isWhitespace).reverse.dropWhile Char.isWhitespace).reverse

/-- Python `s[:n]` on a Lean string. -/
def strTake (s : String) (n : Nat) : String := ⟨s.data.take n⟩

/-- Python `str.rstrip(chars)`: drop trailing characters satisfying `p`. -/
def strDropRightWhile (s : String) (p : Char → Bool) : String :=
  ⟨(s.data.reverse.dropWhile p).reverse⟩

/-- Python `str.split()` (no argument): split on whitespace runs, dropping empties.
`cur` accumulates the current word in reverse. -/
def pyWordsAux (cur : List Char) : List Char → List (List Char)
  | [] => if cur.isEmpty then [] else [cur.reverse]
  | c :: cs =>
    if c.isWhitespace then
      if cur.isEmpty then pyWordsAux [] cs else cur.reverse :: pyWordsAux [] cs
    else pyWordsAux (c :: cur) cs

/-- One pass of `re.sub(marker + whitespace, empty, s)` for a literal `marker`: every
occurrence of `marker` is removed together with the whitespace following it.
Fuel-based so that the kernel can evaluate it; fuel `s.length` always suffices. -/
def eraseMarkerAux (marker : List Char) : Nat → List Char → List Char
  | _, [] => []
  | 0, s => s
  | fuel + 1, c :: cs =>
    if marker.isPrefixOf (c :: cs) && !marker.isEmpty then
      eraseMarkerAux marker fuel ((cs.drop (marker.length - 1)).dropWhile Char.isWhitespace)
    else c :: eraseMarkerAux marker fuel cs

/-- Python `re.sub(marker + whitespace, empty, s)` for a literal marker. -/
def eraseMarker (marker s : List Char) : List Char := eraseMarkerAux marker s.length s

/-- Python `re.sub` of a leading case-insensitive `sql` tag and following whitespace. -/
def stripLeadingSqlTag (s : List Char) : List Char :=
  if (s.take 3).map Char.toLower = "sql".data then (s.drop 3).dropWhile Char.isWhitespace else s

/-- The SQL-cleaning block of `_generate_sql_node`:
`sql = response.content.strip()`, strip code fences and a leading `sql` tag,
strip again, drop trailing semicolons, strip, then rejoin the split words with single spaces. -/
def cleanSql (raw : String) : String :=
  let s := pyStripChars raw.data
  let s := eraseMarker "```sql".data s
  let s := eraseMarker "```".data s
  let s := stripLeadingSqlTag s
  let s := pyStripChars s
  let s := (s.reverse.dropWhile (fun c => c = ';')).reverse
  let s := pyStripChars s
  ⟨List.intercalate [' '] (pyWordsAux [] s)⟩

/- ### Context building -/

/-- Helper `_build_context` (used by the understand node): last 6 messages rendered. -/
def buildContext (messages : List Msg) : String :=
  if messages.isEmpty then ""
  else
    (takeLast 6 messages).foldl
      (fun acc m =>
        match m with
        | .human c => acc ++ "User: " ++ c ++ "\n"
        | .ai c => acc ++ "Assistant: " ++ c ++ "\n"
        | .system _ => acc)
      "Previous conversation:\n"

/-- The comprehension `[msg for msg in messages[-8:-1] if not isinstance(msg, SystemMessage)]`:
the last 7 messages before the newest one, with system messages removed. -/
def recentMsgs (messages : List Msg) : List Msg :=
  (takeLast 7 messages.dropLast).filter (fun m => !(isSystemMsg m))

/-- One context line of `_generate_sql_node`: role label, one-based index, content truncated to 150 characters, trailing dots and newline. -/
def renderEntry (im : Nat × Msg) : String :=
  roleName im.2 ++ " #" ++ toString (im.1 + 1) ++ ": " ++ strTake (msgContent im.2) 150 ++ "...\n"

/-- The fixed anaphora-resolution instruction appended to a non-empty context. -/
def contextInstruction : String :=
  "\nIMPORTANT: If the user\x27s question refers to \x27those\x27, \x27that\x27, \x27them\x27, \x27these results\x27, use the context above to understand what they\x27re referring to.\n"

/-- The header line opening a non-empty conversation context. -/
def contextHeader : String := "\n\nRecent Conversation Context (for follow-up questions):\n"

/-- The `context_text` computation of `_generate_sql_node`: non-empty only when
there is more than one message and some recent non-system message survives. -/
def buildContextText (messages : List Msg) (lastSql : String) : String :=
  if 1 < messages.length then
    let recent := recentMsgs messages
    if !recent.isEmpty then
      contextHeader
        ++ String.join (recent.enum.map renderEntry)
        ++ (if lastSql ≠ "" then "\nLast SQL Query: " ++ lastSql ++ "\n" else "")
        ++ contextInstruction
    else ""
  else ""

/-- The `schema_text` of `_generate_sql_node`. -/
def schemaText (schema : List (String × List String)) : String :=
  String.intercalate "\n"
    (schema.map (fun tc => "Table: " ++ tc.1 ++ "\nColumns: " ++ String.intercalate ", " tc.2))

/-- The `prompt_text` f-string of `_generate_sql_node`. -/
def promptText (schema : List (String × List String)) (contextText userQuery : String) : String :=
  "You are an expert SQL generator for SQLite databases with conversational awareness.\n\nDatabase Schema:\n"
    ++ schemaText schema ++ "\n" ++ contextText
    ++ "\n\nCRITICAL RULES:\n1. Output ONLY a valid SQLite SELECT statement\n2. Do NOT include markdown, backticks, or explanations\n3. Use only tables and columns from the schema above\n4. The main table is \x27olist_master\x27 (use this table for all queries)\n5. For aggregations, use GROUP BY\n6. Round decimals to 2 places: ROUND(column, 2)\n7. CONVERSATIONAL MEMORY: If user refers to previous results/questions, analyze the conversation context above\n8. For follow-up questions like \"what about those?\", \"show me more details\", modify or extend the previous query\n9. Output format: SELECT ... FROM ... WHERE ... GROUP BY ... ORDER BY ... LIMIT ...\n\nCurrent User Question: \"" ++ userQuery
    ++ "\"\n\nGenerate ONLY the SQL query:"

/- ### Validator -/

/-- Reason recorded when the SQL does not start with SELECT. -/
def selectReason : String := "Invalid SQL: doesn\x27t start with SELECT"

/-- Reason recorded when the SQL has no FROM. -/
def fromReason : String := "Invalid SQL: missing FROM clause"

/-- Python `pat in s` on character lists: `pat` occurs as a contiguous run. -/
def containsSeq (pat : List Char) : List Char → Bool
  | [] => pat.isEmpty
  | c :: cs => pat.isPrefixOf (c :: cs) || containsSeq pat cs

/-- The two checks of `_check_sql_valid` on the SQL text itself:
`sql.upper().startswith("SELECT")` and `"FROM" in sql.upper()`.
Returns the recorded reason on rejection, `none` on acceptance. -/
def validateSql (sql : String) : Option String :=
  let u := sql.data.map Char.toUpper
  if !("SELECT".data.isPrefixOf u) then some selectReason
  else if !(containsSeq "FROM".data u) then some fromReason
  else none

/- ### Graph nodes -/

/-- Node `_understand_query_node`. -/
def understandQueryNode (st : ConvState) : ConvState :=
  match st.messages.getLast? with
  | some (.human _) => { st with context := buildContext st.messages.dropLast }
  | _ => { st with error := "No valid user message found" }

/-- Node `_generate_sql_node`; `llm` is the `self.llm.invoke` oracle, `Except.error`
modelling a raised exception. -/
def generateSqlNode (llm : String → Except String String) (st : ConvState) : ConvState :=
  let userQuery := (st.messages.getLast?.map msgContent).getD ""
  let contextText := buildContextText st.messages st.lastSql
  let prompt := promptText st.databaseSchema contextText userQuery
  match llm prompt with
  | .ok resp => { st with lastSql := cleanSql resp }
  | .error e => { st with error := "SQL generation failed: " ++ e }

/-- Node `_execute_query_node`; `exec` is the `pd.read_sql` oracle. -/
def executeQueryNode (exec : String → Except String DataFrame) (st : ConvState) : ConvState :=
  if st.lastSql = "" then { st with error := "No SQL to execute" }
  else
    match exec st.lastSql with
    | .ok df => { st with lastResult := some df, queryCount := st.queryCount + 1 }
    | .error e => { st with error := "Query execution failed: " ++ e }

/-- The response string of `_format_response_node`. -/
def formatText (df : DataFrame) : String :=
  if df.rows.length = 0 then "I found no results for your query."
  else if df.rows.length = 1 && df.cols.length = 1 then
    "The answer is: " ++ (df.rows.headD []).headD ""
  else "I found " ++ toString df.rows.length ++ " results for your query."

/-- Node `_format_response_node`. -/
def formatResponseNode (st : ConvState) : ConvState :=
  match st.lastResult with
  | none => { st with error := "No results to format" }
  | some df => { st with messages := st.messages ++ [.ai (formatText df)] }

/-- Node `_handle_error_node` (the `error` key is always present in the state dict). -/
def handleErrorNode (st : ConvState) : ConvState :=
  { st with messages := st.messages ++ [.ai ("Error: " ++ st.error)] }

/-- Router `_check_sql_valid`: routes to the error path when an error is already set or a
check fails, recording the reason in the state. -/
def checkSqlValidRoute (st : ConvState) : ConvState × Bool :=
  if st.error ≠ "" then (st, false)
  else
    match validateSql st.lastSql with
    | some reason => ({ st with error := reason }, false)
    | none => (st, true)

/-- The compiled graph of `_build_graph`, run on one turn: understand →
(generate → validate → execute → format) with every error edge going through
`_handle_error_node` and then END. -/
def runGraph (llm : String → Except String String) (exec : String → Except String DataFrame)
    (st : ConvState) : ConvState :=
  let st1 := understandQueryNode st
  if st1.error ≠ "" then handleErrorNode st1
  else
    let st2 := generateSqlNode llm st1
    let p := checkSqlValidRoute st2
    if p.2 then
      let st3 := executeQueryNode exec p.1
      if st3.error ≠ "" then handleErrorNode st3
      else formatResponseNode st3
    else handleErrorNode p.1

/- ### History store -/

/-- A row of `chat_sessions`. -/
structure SessionRow where
  sessionId : String
  sessionName : String
  createdAt : Nat
  lastActivity : Nat
  deriving DecidableEq, Repr

/-- A row of `chat_messages`. -/
structure MessageRow where
  rowId : Nat
  sessionId : String
  role : String
  content : String
  sqlQuery : Option String
  resultCount : Nat
  success : Bool
  timestamp : Nat
  deriving DecidableEq, Repr

/-- The sqlite history database: both tables plus the autoincrement counter. -/
structure HistoryDB where
  sessions : List SessionRow
  messages : List MessageRow
  nextId : Nat
  deriving DecidableEq, Repr

/-- A freshly initialised history database. -/
def emptyDB : HistoryDB := ⟨[], [], 1⟩

/-- Helper `_generate_session_name`. -/
def generateSessionName (firstMessage : String) : String :=
  let name : String := ⟨pyStripChars (strTake firstMessage 40).data⟩
  let name := strDropRightWhile name (fun c => c = '?' || c = '.' || c = '!' || c = ',')
  if name.length < 10 then "New Conversation" else name

/-- Append `save_message`: insert the session row when absent (name from `content` only
when the role is `user`), update `last_activity`, append the message row.
`now` models `CURRENT_TIMESTAMP`. -/
def saveMessage (db : HistoryDB) (now : Nat) (sessionId role content : String)
    (sql : Option String) (resultCount : Nat) (success : Bool) : HistoryDB :=
  let db :=
    if db.sessions.any (fun s => s.sessionId = sessionId) then db
    else
      let name := if role = "user" then generateSessionName content else "New Chat"
      { db with sessions := db.sessions ++ [⟨sessionId, name, now, now⟩] }
  let db :=
    { db with
      sessions := db.sessions.map
        (fun (s : SessionRow) =>
          if s.sessionId = sessionId then { s with lastActivity := now } else s) }
  { db with
    messages := db.messages ++ [⟨db.nextId, sessionId, role, content, sql, resultCount, success, now⟩]
    nextId := db.nextId + 1 }

/-- Timestamp order used by `ORDER BY timestamp ASC`. -/
def tsLE (a b : MessageRow) : Prop := a.timestamp ≤ b.timestamp

instance : DecidableRel tsLE := fun a b => inferInstanceAs (Decidable (a.timestamp ≤ b.timestamp))

/-- Loader `load_session_history`: the session rows ordered by ascending timestamp
(stable in insertion order on ties, modelling the rowid tie order). -/
def loadSessionHistory (db : HistoryDB) (sessionId : String) : List MessageRow :=
  List.insertionSort tsLE (db.messages.filter (fun m => m.sessionId = sessionId))

/-- Row-to-message conversion of `get_recent_context_from_db`: other roles are skipped. -/
def msgOfRow (m : MessageRow) : Option Msg :=
  if m.role = "user" then some (Msg.human m.content)
  else if m.role = "assistant" then some (Msg.ai m.content)
  else none

/-- Loader `get_recent_context_from_db`: last `limit` history rows, converted. -/
def getRecentContextFromDb (db : HistoryDB) (sessionId : String) (limit : Nat) : List Msg :=
  (takeLast limit (loadSessionHistory db sessionId)).filterMap msgOfRow

/-- The pure effect of the two DELETE statements of `delete_session`. -/
def deleteSessionRows (db : HistoryDB) (sessionId : String) : HistoryDB :=
  { db with
    messages := db.messages.filter (fun m => m.sessionId ≠ sessionId)
    sessions := db.sessions.filter (fun s => s.sessionId ≠ sessionId) }

/-- Deletion `delete_session`: the sqlite work (`backend`) runs inside try/except; an
exception is caught and reported as `false`, leaving the store as it was. -/
def deleteSession (backend : HistoryDB → String → Except String HistoryDB)
    (db : HistoryDB) (sessionId : String) : HistoryDB × Bool :=
  match backend db sessionId with
  | .ok db2 => (db2, true)
  | .error _ => (db, false)

/- ### process_message -/

/-- The `QueryResult` dataclass (`data` and `error` may be Python `None`). -/
structure QueryResult where
  question : String
  sql : String
  data : Option DataFrame
  success : Bool
  error : Option String
  timestamp : Nat
  deriving DecidableEq, Repr

/-- Arguments of one `save_message` call. -/
structure SaveReq where
  sessionId : String
  role : String
  content : String
  sql : Option String
  resultCount : Nat
  success : Bool
  deriving DecidableEq, Repr

/-- Apply `save_message` to a request record. -/
def saveMessageReq (db : HistoryDB) (now : Nat) (r : SaveReq) : HistoryDB :=
  saveMessage db now r.sessionId r.role r.content r.sql r.resultCount r.success

/-- The assistant-turn save request built by `process_message`: on a successful
turn with a result table it stores the formatted answer, the SQL and the row
count; otherwise the error text, the SQL and a failure flag. -/
def assistantReq (sid : String) (t : ConvState) : SaveReq :=
  if (t.error = "" : Bool) && t.lastResult.isSome then
    ⟨sid, "assistant", (t.messages.getLast?.map msgContent).getD "",
      some t.lastSql, (t.lastResult.getD emptyDF).rows.length, true⟩
  else ⟨sid, "assistant", t.error, some t.lastSql, 0, false⟩

/-- The `QueryResult` built at the end of `process_message` from the terminal
state `t`. -/
def turnResult (user : String) (now : Nat) (t : ConvState) : QueryResult :=
  ⟨user, t.lastSql, some (t.lastResult.getD emptyDF), (t.error = "" : Bool),
    if (t.error = "" : Bool) then none else some t.error, now⟩

/-- The sqlite layer under `save_message`: it may raise (`Except.error`), and
`save_message` itself contains no try/except, so such an error passes through. -/
structure Store where
  save : HistoryDB → Nat → SaveReq → Except String HistoryDB

/-- A store whose writes all succeed, with the semantics of `save_message`. -/
def goodStore : Store := ⟨fun db now r => .ok (saveMessageReq db now r)⟩

/-- A store whose next write raises. -/
def failingStore (msg : String) : Store := ⟨fun _ _ _ => .error msg⟩

/-- The message-list resolution of `process_message`: `if existing_messages:` is
Python truthiness, so an empty caller-supplied list also falls back to the DB. -/
def workingMessages (db : HistoryDB) (sessionId : String)
    (existingMessages : Option (List Msg)) : List Msg :=
  match existingMessages with
  | some l => if !l.isEmpty then l else getRecentContextFromDb db sessionId 10
  | none => getRecentContextFromDb db sessionId 10

/-- The `initial_state` built by `process_message`. -/
def initialState (dbPath : String) (schema : List (String × List String))
    (messages : List Msg) (sessionId : String) : ConvState :=
  ⟨messages, dbPath, schema, "", none, sessionId, 0, "", ""⟩

/-- The terminal graph state of one `process_message` turn. -/
def turnState (llm : String → Except String String) (exec : String → Except String DataFrame)
    (dbPath : String) (schema : List (String × List String)) (db : HistoryDB)
    (user sid : String) (ex : Option (List Msg)) : ConvState :=
  runGraph llm exec (initialState dbPath schema (workingMessages db sid ex ++ [Msg.human user]) sid)

/-- Wrapper `process_message`: build the working list, run the graph, persist the user
turn and the assistant turn, return the `QueryResult`. A store error propagates
(there is no try/except around the `save_message` calls). -/
def processMessage (store : Store) (llm : String → Except String String)
    (exec : String → Except String DataFrame) (db : HistoryDB) (now : Nat)
    (dbPath : String) (schema : List (String × List String))
    (userMessage sessionId : String) (existingMessages : Option (List Msg)) :
    Except String (QueryResult × HistoryDB) :=
  let messages := workingMessages db sessionId existingMessages ++ [Msg.human userMessage]
  let finalState := runGraph llm exec (initialState dbPath schema messages sessionId)
  let success : Bool := finalState.error = ""
  match store.save db now ⟨sessionId, "user", userMessage, none, 0, true⟩ with
  | .error e => .error e
  | .ok db1 =>
    let asstReq : SaveReq :=
      if success && finalState.lastResult.isSome then
        ⟨sessionId, "assistant", (finalState.messages.getLast?.map msgContent).getD "",
          some finalState.lastSql, (finalState.lastResult.getD emptyDF).rows.length, true⟩
      else
        ⟨sessionId, "assistant", finalState.error, some finalState.lastSql, 0, false⟩
    match store.save db1 now asstReq with
    | .error e => .error e
    | .ok db2 =>
      .ok (⟨userMessage, finalState.lastSql, some (finalState.lastResult.getD emptyDF),
            success, if success then none else some finalState.error, now⟩, db2)

/-- Spec-side statement of the validator contract (for claim C2), following the
words of the spec: the trimmed, case-insensitive text must begin with SELECT and
contain a FROM clause. -/
def specValidatorAccepts (sql : String) : Bool :=
  let u := (pyStripChars sql.data).map Char.toUpper
  "SELECT".data.isPrefixOf u && containsSeq "FROM".data u

/-! ### Helper lemmas -/

lemma stringAppendNeEmpty (a b : String) (h : a.data ≠ []) : a ++ b ≠ "" := by
  intro hab
  have h2 : a.data ++ b.data = [] := congrArg String.data hab
  exact h (List.append_eq_nil.mp h2).1

lemma validateSql_reason_ne {sql r : String} (h : validateSql sql = some r) : r ≠ "" := by
  simp only [validateSql] at h
  split at h
  · injection h with h; subst h; decide
  · split at h
    · injection h with h; subst h; decide
    · exact absurd h (by simp)

lemma validateSql_none_ne {sql : String} (h : validateSql sql = none) : sql ≠ "" := by
  intro he
  subst he
  exact absurd h (by decide)

/-- Claim C2, counterexample: on `" SELECT a FROM t"` the trimmed text begins
with SELECT and contains FROM — the spec-stated contract accepts — but
`_check_sql_valid` does not trim and rejects it, so the stated iff fails. -/
theorem c2_counterexample :
    specValidatorAccepts " SELECT a FROM t" = true ∧
    validateSql " SELECT a FROM t" = some selectReason := by
  constructor
  · decide
  · decide

/-- Claim C2 (amended: the validator does not trim its input; the iff holds for
the untrimmed, case-insensitive text): the validator accepts a SQL string iff
its upper-cased text begins with SELECT and contains FROM; the three spec
examples behave as stated; and on a state with no prior error a rejection
records the specific reason in the state and routes the turn to the error
path (route `false`, i.e. `handle_error`). -/
theorem c2_amended_validator :
    (∀ sql : String, validateSql sql = none ↔
      ("SELECT".data.isPrefixOf (sql.data.map Char.toUpper) = true ∧
        containsSeq "FROM".data (sql.data.map Char.toUpper) = true)) ∧
    validateSql "SELECT a FROM t" = none ∧
    validateSql "DELETE FROM t" = some selectReason ∧
    validateSql "SELECT a" = some fromReason ∧
    (∀ st : ConvState, st.error = "" → ∀ r : String, validateSql st.lastSql = some r →
      checkSqlValidRoute st = ({ st with error := r }, false)) := by
  refine ⟨?_, by decide, by decide, by decide, ?_⟩
  · intro sql
    simp only [validateSql]
    constructor
    · intro h
      split at h
      · exact absurd h (by simp)
      · split at h
        · exact absurd h (by simp)
        · rename_i h1 h2
          simp only [Bool.not_eq_true'] at h1 h2
          simp only [Bool.not_eq_false] at h1 h2
          exact ⟨h1, h2⟩
    · intro ⟨h1, h2⟩
      simp [h1, h2]
  · intro st he r hv
    simp only [checkSqlValidRoute, he, hv]
    simp

/-- Witness for the amended C2: a concrete state carrying `"DELETE FROM t"`
with no prior error is routed to the error path with the recorded reason. -/
theorem c2_amended_validator_witness :
    checkSqlValidRoute { initialState "p" [] [Msg.human "q"] "s" with lastSql := "DELETE FROM t" }
      = ({ initialState "p" [] [Msg.human "q"] "s" with
            lastSql := "DELETE FROM t", error := selectReason }, false) :=
  c2_amended_validator.2.2.2.2 _ rfl selectReason (by decide)

/-- Claim C3: for a result table reaching the formatter, zero rows give the
fixed "no results" message, exactly one row and one column give
"The answer is: <value>" with the value of that cell, and otherwise the message is
"I found <n> results for your query." with the row count; the formatted text is
appended to the conversation as the assistant turn. -/
theorem c3_format_policy (st : ConvState) (df : DataFrame) (h : st.lastResult = some df) :
    formatResponseNode st = { st with messages := st.messages ++ [Msg.ai (formatText df)] } ∧
    (df.rows.length = 0 → formatText df = "I found no results for your query.") ∧
    (df.rows.length = 1 → df.cols.length = 1 →
      formatText df = "The answer is: " ++ (df.rows.headD []).headD "") ∧
    (df.rows.length ≠ 0 → ¬(df.rows.length = 1 ∧ df.cols.length = 1) →
      formatText df = "I found " ++ toString df.rows.length ++ " results for your query.") := by
  refine ⟨by simp [formatResponseNode, h], ?_, ?_, ?_⟩
  · intro h0
    simp [formatText, h0]
  · intro h1 h2
    simp [formatText, h1, h2]
  · intro h1 h2
    unfold formatText
    rw [if_neg h1, if_neg ?_]
    simp only [Bool.and_eq_true, decide_eq_true_eq, not_and]
    intro hr
    exact fun hc => h2 ⟨hr, hc⟩

/-- Witness for C3 at the own examples of the spec: the single-cell table with one value 42,
the empty table, and a three-row table. -/
theorem c3_format_policy_witness :
    formatResponseNode ⟨[], "p", [], "", some ⟨["value"], [["42"]]⟩, "s", 0, "", ""⟩
      = { (⟨[], "p", [], "", some ⟨["value"], [["42"]]⟩, "s", 0, "", ""⟩ : ConvState) with
          messages := ([] : List Msg) ++ [Msg.ai (formatText ⟨["value"], [["42"]]⟩)] } ∧
    formatText ⟨["value"], [["42"]]⟩ = "The answer is: " ++ ([["42"]].headD []).headD "" ∧
    formatText ⟨["a", "b"], []⟩ = "I found no results for your query." ∧
    formatText ⟨["a"], [["1"], ["2"], ["3"]]⟩ = "I found " ++ toString 3 ++ " results for your query." :=
  ⟨(c3_format_policy _ _ rfl).1,
   (c3_format_policy (⟨[], "p", [], "", some ⟨["value"], [["42"]]⟩, "s", 0, "", ""⟩ : ConvState)
      ⟨["value"], [["42"]]⟩ rfl).2.2.1 rfl rfl,
   (c3_format_policy (⟨[], "p", [], "", some ⟨["a", "b"], []⟩, "s", 0, "", ""⟩ : ConvState)
      ⟨["a", "b"], []⟩ rfl).2.1 rfl,
   (c3_format_policy (⟨[], "p", [], "", some ⟨["a"], [["1"], ["2"], ["3"]]⟩, "s", 0, "", ""⟩ : ConvState)
      ⟨["a"], [["1"], ["2"], ["3"]]⟩ rfl).2.2.2 (by decide) (by decide)⟩

lemma map_id_of_forall {α : Type} (l : List α) (f : α → α) (h : ∀ x ∈ l, f x = x) :
    l.map f = l := by
  induction l with
  | nil => rfl
  | cons a t ih =>
    simp only [List.map_cons, h a (by simp), ih (fun x hx => h x (by simp [hx]))]

/-- The message table of `save_message` always gains exactly the one new row,
whatever the session handling did. -/
lemma saveMessage_messages (db : HistoryDB) (now : Nat) (sid role content : String)
    (sql : Option String) (rc : Nat) (succ : Bool) :
    (saveMessage db now sid role content sql rc succ).messages
      = db.messages ++ [⟨db.nextId, sid, role, content, sql, rc, succ, now⟩] := by
  simp only [saveMessage]
  split <;> rfl

/-- The session-row update of `save_message` preserves the number of sessions. -/
lemma saveMessage_sessions_length_of_known (db : HistoryDB) (now : Nat)
    (sid role content : String) (sql : Option String) (rc : Nat) (succ : Bool)
    (h : db.sessions.any (fun s => s.sessionId = sid) = true) :
    (saveMessage db now sid role content sql rc succ).sessions.length
      = db.sessions.length := by
  simp only [saveMessage, h]
  simp

/-- Claim C7: an `append` on an unknown session id creates exactly one session
row — its display name derived from the content only when the role is `user` —
with last-activity set to the write time, and exactly one message row; a second
`append` on the same session id creates zero additional session rows (and one
more message row). -/
theorem c7_append_session (db : HistoryDB) (now now2 : Nat)
    (sid role content : String) (sql : Option String) (rc : Nat) (succ : Bool)
    (role2 content2 : String) (sql2 : Option String) (rc2 : Nat) (succ2 : Bool)
    (h : ∀ s ∈ db.sessions, s.sessionId ≠ sid) :
    (saveMessage db now sid role content sql rc succ).sessions
        = db.sessions
            ++ [⟨sid, if role = "user" then generateSessionName content else "New Chat", now, now⟩] ∧
    (saveMessage db now sid role content sql rc succ).messages
        = db.messages ++ [⟨db.nextId, sid, role, content, sql, rc, succ, now⟩] ∧
    (saveMessage db now sid role content sql rc succ).sessions.length
        = db.sessions.length + 1 ∧
    (saveMessage db now sid role content sql rc succ).messages.length
        = db.messages.length + 1 ∧
    (saveMessage (saveMessage db now sid role content sql rc succ)
        now2 sid role2 content2 sql2 rc2 succ2).sessions.length
        = db.sessions.length + 1 ∧
    (saveMessage (saveMessage db now sid role content sql rc succ)
        now2 sid role2 content2 sql2 rc2 succ2).messages.length
        = db.messages.length + 2 := by
  have hany : db.sessions.any (fun s => s.sessionId = sid) = false := by
    simp only [List.any_eq_false, decide_eq_true_eq]
    exact h
  have hsess : (saveMessage db now sid role content sql rc succ).sessions
      = db.sessions
          ++ [⟨sid, if role = "user" then generateSessionName content else "New Chat", now, now⟩] := by
    simp only [saveMessage, hany]
    simp only [Bool.false_eq_true, if_false, List.map_append]
    rw [map_id_of_forall _ _ (fun s hs => by simp [h s hs])]
    simp
  have hmsg := saveMessage_messages db now sid role content sql rc succ
  have hlen1 : (saveMessage db now sid role content sql rc succ).sessions.length
      = db.sessions.length + 1 := by rw [hsess]; simp
  have hany2 : (saveMessage db now sid role content sql rc succ).sessions.any
      (fun s => s.sessionId = sid) = true := by
    rw [hsess]
    simp
  refine ⟨hsess, hmsg, hlen1, by rw [hmsg]; simp, ?_, ?_⟩
  · rw [saveMessage_sessions_length_of_known _ _ _ _ _ _ _ _ hany2, hlen1]
  · rw [saveMessage_messages, hmsg]
    simp

/-- Witness for C7: a first append on the empty store, then a second one. -/
theorem c7_append_session_witness :
    (saveMessage emptyDB 3 "s1" "user" "show top sellers" none 0 true).sessions
        = [⟨"s1", if "user" = "user" then generateSessionName "show top sellers" else "New Chat", 3, 3⟩] ∧
    (saveMessage emptyDB 3 "s1" "user" "show top sellers" none 0 true).messages
        = [⟨1, "s1", "user", "show top sellers", none, 0, true, 3⟩] ∧
    (saveMessage emptyDB 3 "s1" "user" "show top sellers" none 0 true).sessions.length = 0 + 1 ∧
    (saveMessage emptyDB 3 "s1" "user" "show top sellers" none 0 true).messages.length = 0 + 1 ∧
    (saveMessage (saveMessage emptyDB 3 "s1" "user" "show top sellers" none 0 true)
        4 "s1" "assistant" "I found 5 results for your query." (some "SELECT a FROM t") 5 true).sessions.length
        = 0 + 1 ∧
    (saveMessage (saveMessage emptyDB 3 "s1" "user" "show top sellers" none 0 true)
        4 "s1" "assistant" "I found 5 results for your query." (some "SELECT a FROM t") 5 true).messages.length
        = 0 + 2 := by
  have h := c7_append_session emptyDB 3 4 "s1" "user" "show top sellers" none 0 true
    "assistant" "I found 5 results for your query." (some "SELECT a FROM t") 5 true
    (by intro s hs; simp [emptyDB] at hs)
  simpa [emptyDB] using h

/-- Claim C9: when the stored timestamps are non-decreasing in insertion order
(the clock `CURRENT_TIMESTAMP` is monotone, ties resolved in rowid order),
`load_messages` returns exactly the rows of the session in the order the `append`
calls were made, that order is non-decreasing by timestamp, and one more
`append` at a time not before every stored timestamp extends the load result by
exactly its row at the end. -/
theorem c9_load_messages_order (db : HistoryDB) (sid : String)
    (h : db.messages.Pairwise tsLE) :
    loadSessionHistory db sid = db.messages.filter (fun m => m.sessionId = sid) ∧
    (loadSessionHistory db sid).Pairwise tsLE ∧
    (∀ (now : Nat) (role content : String) (sql : Option String) (rc : Nat) (succ : Bool),
      (∀ m ∈ db.messages, m.timestamp ≤ now) →
      loadSessionHistory (saveMessage db now sid role content sql rc succ) sid
        = loadSessionHistory db sid ++ [⟨db.nextId, sid, role, content, sql, rc, succ, now⟩]) := by
  have hf : (db.messages.filter (fun m => m.sessionId = sid)).Pairwise tsLE := h.filter _
  have h1 : loadSessionHistory db sid = db.messages.filter (fun m => m.sessionId = sid) :=
    List.Sorted.insertionSort_eq hf
  refine ⟨h1, by rw [h1]; exact hf, ?_⟩
  intro now role content sql rc succ hts
  have hrow : (⟨db.nextId, sid, role, content, sql, rc, succ, now⟩ : MessageRow).sessionId = sid :=
    rfl
  have hfil : (saveMessage db now sid role content sql rc succ).messages.filter
      (fun m => m.sessionId = sid)
      = db.messages.filter (fun m => m.sessionId = sid)
          ++ [⟨db.nextId, sid, role, content, sql, rc, succ, now⟩] := by
    rw [saveMessage_messages]
    simp [List.filter_append]
  have hsorted : ((saveMessage db now sid role content sql rc succ).messages.filter
      (fun m => m.sessionId = sid)).Pairwise tsLE := by
    rw [hfil]
    rw [List.pairwise_append]
    refine ⟨hf, by simp, ?_⟩
    intro a ha b hb
    simp only [List.mem_singleton] at hb
    subst hb
    exact hts a (List.mem_of_mem_filter ha)
  unfold loadSessionHistory
  rw [List.Sorted.insertionSort_eq hsorted, hfil, List.Sorted.insertionSort_eq hf]

/-- Witness for C9: a store holding three messages over two sessions, written at
non-decreasing times, then a fourth append. -/
theorem c9_load_messages_order_witness :
    loadSessionHistory
        ⟨[], [⟨1, "s1", "user", "q1", none, 0, true, 1⟩,
              ⟨2, "s2", "user", "other", none, 0, true, 1⟩,
              ⟨3, "s1", "assistant", "a1", some "SELECT a FROM t", 2, true, 2⟩], 4⟩ "s1"
      = [⟨1, "s1", "user", "q1", none, 0, true, 1⟩,
         ⟨3, "s1", "assistant", "a1", some "SELECT a FROM t", 2, true, 2⟩] ∧
    loadSessionHistory
        (saveMessage
          ⟨[], [⟨1, "s1", "user", "q1", none, 0, true, 1⟩,
                ⟨2, "s2", "user", "other", none, 0, true, 1⟩,
                ⟨3, "s1", "assistant", "a1", some "SELECT a FROM t", 2, true, 2⟩], 4⟩
          5 "s1" "user" "q2" none 0 true) "s1"
      = [⟨1, "s1", "user", "q1", none, 0, true, 1⟩,
         ⟨3, "s1", "assistant", "a1", some "SELECT a FROM t", 2, true, 2⟩,
         ⟨4, "s1", "user", "q2", none, 0, true, 5⟩] := by
  have h := c9_load_messages_order
    ⟨[], [⟨1, "s1", "user", "q1", none, 0, true, 1⟩,
          ⟨2, "s2", "user", "other", none, 0, true, 1⟩,
          ⟨3, "s1", "assistant", "a1", some "SELECT a FROM t", 2, true, 2⟩], 4⟩ "s1"
    (by decide)
  refine ⟨by rw [h.1]; decide, ?_⟩
  rw [h.2.2 5 "user" "q2" none 0 true (by decide), h.1]
  decide

lemma suffix_takeLast {α : Type} (A B : List α) (n : Nat) (h : B.length ≤ n) :
    List.IsSuffix B (takeLast n (A ++ B)) := by
  unfold takeLast
  rw [List.length_append]
  have h1 : A.length + B.length - n ≤ A.length := by omega
  rw [List.drop_append_of_le_length h1]
  exact ⟨A.drop (A.length + B.length - n), rfl⟩

/-- Filtering after taking the last `n` yields a suffix of (so: at most) the
last `n` elements of the filtered list. -/
lemma filter_takeLast_suffix {α : Type} (p : α → Bool) (n : Nat) (l : List α) :
    List.IsSuffix ((takeLast n l).filter p) (takeLast n (l.filter p)) := by
  have hdecomp : l = l.take (l.length - n) ++ takeLast n l :=
    (List.take_append_drop _ l).symm
  have hlen : ((takeLast n l).filter p).length ≤ n := by
    have h1 := List.length_filter_le p (takeLast n l)
    have h2 : (takeLast n l).length ≤ n := by
      unfold takeLast
      rw [List.length_drop]
      omega
    omega
  conv_rhs => rw [hdecomp]
  rw [List.filter_append]
  exact suffix_takeLast _ _ n hlen

/-- Claim C6: the translator context is empty when there is no prior message;
the rendered window is a suffix of (hence contains at most) the last 7
non-system prior messages, the newest user message excluded; and a non-empty
context is exactly the header, the numbered 150-character-truncated renderings,
the last generated SQL when present, and the fixed anaphora instruction. -/
theorem c6_context_builder :
    (∀ (messages : List Msg) (lastSql : String),
      messages.dropLast = [] → buildContextText messages lastSql = "") ∧
    (∀ messages : List Msg,
      List.IsSuffix (recentMsgs messages)
        (takeLast 7 (messages.dropLast.filter (fun m => !(isSystemMsg m))))) ∧
    (∀ (messages : List Msg) (lastSql : String), recentMsgs messages ≠ [] →
      buildContextText messages lastSql
        = contextHeader
            ++ String.join ((recentMsgs messages).enum.map renderEntry)
            ++ (if lastSql ≠ "" then "\nLast SQL Query: " ++ lastSql ++ "\n" else "")
            ++ contextInstruction) := by
  refine ⟨?_, ?_, ?_⟩
  · intro messages lastSql h
    have hle : ¬(1 < messages.length) := by
      have h2 := congrArg List.length h
      simp only [List.length_dropLast, List.length_nil] at h2
      omega
    simp [buildContextText, hle]
  · intro messages
    exact filter_takeLast_suffix _ 7 _
  · intro messages lastSql hne
    have hdl : messages.dropLast ≠ [] := by
      intro h
      apply hne
      unfold recentMsgs
      rw [h]
      rfl
    have hlen : 1 < messages.length := by
      cases messages with
      | nil => exact absurd rfl hdl
      | cons a t =>
        cases t with
        | nil => exact absurd rfl hdl
        | cons b u => simp
    have hempty : (recentMsgs messages).isEmpty = false := by
      cases hr : recentMsgs messages with
      | nil => exact absurd hr hne
      | cons a t => rfl
    simp only [buildContextText, if_pos hlen, hempty, Bool.not_false, if_pos]

/-- Witness for C6: a lone user message yields the empty context; two prior
turns plus the current question yield the header, both renderings, the last
SQL line and the instruction. -/
theorem c6_context_builder_witness :
    buildContextText [Msg.human "only question"] "SELECT a FROM t" = "" ∧
    buildContextText [Msg.human "q1", Msg.ai "a1", Msg.human "q2"] "SELECT a FROM t"
      = contextHeader
          ++ String.join
              ((recentMsgs [Msg.human "q1", Msg.ai "a1", Msg.human "q2"]).enum.map renderEntry)
          ++ (if ("SELECT a FROM t" : String) ≠ "" then
                "\nLast SQL Query: " ++ "SELECT a FROM t" ++ "\n"
              else "")
          ++ contextInstruction :=
  ⟨c6_context_builder.1 _ _ rfl, c6_context_builder.2.2 _ _ (by decide)⟩

lemma understandQueryNode_cases (st : ConvState) :
    ((∃ c, st.messages.getLast? = some (Msg.human c)) ∧
      understandQueryNode st = { st with context := buildContext st.messages.dropLast }) ∨
    understandQueryNode st = { st with error := "No valid user message found" } := by
  unfold understandQueryNode
  cases hm : st.messages.getLast? with
  | none => exact .inr rfl
  | some m =>
    cases m with
    | human c => exact .inl ⟨⟨c, rfl⟩, rfl⟩
    | ai c => exact .inr rfl
    | system c => exact .inr rfl

lemma generateSqlNode_cases (llm : String → Except String String) (st : ConvState) :
    (∃ resp : String, generateSqlNode llm st = { st with lastSql := cleanSql resp }) ∨
    (∃ e : String, generateSqlNode llm st = { st with error := "SQL generation failed: " ++ e }) := by
  simp only [generateSqlNode]
  cases hD : llm (promptText st.databaseSchema (buildContextText st.messages st.lastSql)
      ((st.messages.getLast?.map msgContent).getD "")) with
  | ok resp => exact .inl ⟨resp, rfl⟩
  | error e => exact .inr ⟨e, rfl⟩

lemma checkSqlValidRoute_cases (st : ConvState) (h : st.error = "") :
    (validateSql st.lastSql = none ∧ checkSqlValidRoute st = (st, true)) ∨
    (∃ r, validateSql st.lastSql = some r ∧
      checkSqlValidRoute st = ({ st with error := r }, false)) := by
  unfold checkSqlValidRoute
  rw [if_neg (by simp [h])]
  cases hv : validateSql st.lastSql with
  | none => exact .inl ⟨rfl, rfl⟩
  | some r => exact .inr ⟨r, rfl, rfl⟩

lemma executeQueryNode_cases (exec : String → Except String DataFrame) (st : ConvState)
    (hsql : st.lastSql ≠ "") :
    (∃ df, executeQueryNode exec st
        = { st with lastResult := some df, queryCount := st.queryCount + 1 }) ∨
    (∃ e, executeQueryNode exec st = { st with error := "Query execution failed: " ++ e }) := by
  unfold executeQueryNode
  rw [if_neg hsql]
  cases hD : exec st.lastSql with
  | ok df => exact .inl ⟨df, rfl⟩
  | error e => exact .inr ⟨e, rfl⟩

/-- Terminal-state case analysis for one graph run started from a fresh turn
state: either the run ends at FORMAT with no error, a validated SQL and a
result table whose formatted text is the appended assistant turn, or it ends at
HANDLE_ERROR with a non-empty error, no result table, and the error text
appended as the assistant turn. -/
lemma runGraph_spec (llm : String → Except String String)
    (exec : String → Except String DataFrame) (st0 : ConvState)
    (h0 : st0.error = "") (h1 : st0.lastResult = none) :
    ((runGraph llm exec st0).error = "" ∧
      validateSql (runGraph llm exec st0).lastSql = none ∧
      ∃ df : DataFrame, (runGraph llm exec st0).lastResult = some df ∧
        (runGraph llm exec st0).messages = st0.messages ++ [Msg.ai (formatText df)]) ∨
    ((runGraph llm exec st0).error ≠ "" ∧
      (runGraph llm exec st0).lastResult = none ∧
      (runGraph llm exec st0).messages
        = st0.messages ++ [Msg.ai ("Error: " ++ (runGraph llm exec st0).error)]) := by
  simp only [runGraph]
  rcases understandQueryNode_cases st0 with ⟨⟨c, hm⟩, hu⟩ | hu <;> rw [hu]
  case inr =>
    rw [if_pos (show ({ st0 with error := "No valid user message found" } : ConvState).error ≠ ""
      by simp)]
    right
    exact ⟨by simp [handleErrorNode], h1, rfl⟩
  case inl =>
    set stc : ConvState := { st0 with context := buildContext st0.messages.dropLast } with hstc
    have hcerr : stc.error = "" := by rw [hstc]; exact h0
    rw [if_neg (show ¬(stc.error ≠ "") from fun hne => hne hcerr)]
    rcases generateSqlNode_cases llm stc with ⟨resp, hg⟩ | ⟨e, hg⟩ <;> rw [hg]
    case inr =>
      set ste : ConvState := { stc with error := "SQL generation failed: " ++ e } with hste
      have herr : ste.error ≠ "" := by
        rw [hste]
        exact stringAppendNeEmpty _ e (by decide)
      have hr : checkSqlValidRoute ste = (ste, false) := by
        unfold checkSqlValidRoute
        rw [if_pos herr]
      rw [hr]
      rw [if_neg (show ¬(((ste, false).2 : Bool) = true) from by simp)]
      right
      refine ⟨by simpa [handleErrorNode] using herr, ?_, ?_⟩
      · simp [handleErrorNode, hste, hstc, h1]
      · simp [handleErrorNode, hste, hstc]
    case inl =>
      set st2 : ConvState := { stc with lastSql := cleanSql resp } with hst2
      have h2 : st2.error = "" := by rw [hst2, hstc]; exact h0
      rcases checkSqlValidRoute_cases st2 h2 with ⟨hv, hr⟩ | ⟨r, hv, hr⟩ <;> rw [hr]
      case inr =>
        rw [if_neg (show ¬((({ st2 with error := r }, false).2 : Bool) = true) from by simp)]
        right
        refine ⟨by simpa [handleErrorNode] using validateSql_reason_ne hv, ?_, ?_⟩
        · simp [handleErrorNode, hst2, hstc, h1]
        · simp [handleErrorNode, hst2, hstc]
      case inl =>
        rw [if_pos (show (((st2, true).2 : Bool) = true) from rfl)]
        rcases executeQueryNode_cases exec st2 (validateSql_none_ne hv) with
          ⟨df, hx⟩ | ⟨e, hx⟩ <;> rw [hx]
        case inr =>
          set stx : ConvState := { st2 with error := "Query execution failed: " ++ e } with hstx
          have herr : stx.error ≠ "" := by
            rw [hstx]
            exact stringAppendNeEmpty _ e (by decide)
          rw [if_pos herr]
          right
          refine ⟨by simpa [handleErrorNode] using herr, ?_, ?_⟩
          · simp [handleErrorNode, hstx, hst2, hstc, h1]
          · simp [handleErrorNode, hstx, hst2, hstc]
        case inl =>
          set sty : ConvState :=
            { st2 with lastResult := some df, queryCount := st2.queryCount + 1 } with hsty
          have hyerr : sty.error = "" := by rw [hsty, hst2, hstc]; exact h0
          rw [if_neg (show ¬(sty.error ≠ "") from fun hne => hne hyerr)]
          have hfmt : formatResponseNode sty
              = { sty with messages := sty.messages ++ [Msg.ai (formatText df)] } := by
            rw [hsty]
            unfold formatResponseNode
            rfl
          rw [hfmt]
          left
          refine ⟨by simpa using hyerr, ?_, df, by simp [hsty], ?_⟩
          · show validateSql sty.lastSql = none
            rw [hsty]
            exact hv
          · simp [hsty, hst2, hstc]

/-- With a healthy store, `process_message` reduces to the pure turn: run the
graph, persist the user row then the assistant row, return the result record. -/
lemma processMessage_goodStore (llm : String → Except String String)
    (exec : String → Except String DataFrame) (db : HistoryDB) (now : Nat)
    (dbPath : String) (schema : List (String × List String)) (user sid : String)
    (ex : Option (List Msg)) :
    processMessage goodStore llm exec db now dbPath schema user sid ex
      = .ok (turnResult user now (turnState llm exec dbPath schema db user sid ex),
             saveMessageReq (saveMessageReq db now ⟨sid, "user", user, none, 0, true⟩) now
               (assistantReq sid (turnState llm exec dbPath schema db user sid ex))) := rfl

lemma assistantReq_sessionId (sid : String) (t : ConvState) :
    (assistantReq sid t).sessionId = sid := by
  unfold assistantReq
  split <;> rfl

lemma assistantReq_role (sid : String) (t : ConvState) :
    (assistantReq sid t).role = "assistant" := by
  unfold assistantReq
  split <;> rfl

lemma assistantReq_sql (sid : String) (t : ConvState) :
    (assistantReq sid t).sql = some t.lastSql := by
  unfold assistantReq
  split <;> rfl

lemma saveMessage_nextId (db : HistoryDB) (now : Nat) (sid role content : String)
    (sql : Option String) (rc : Nat) (succ : Bool) :
    (saveMessage db now sid role content sql rc succ).nextId = db.nextId + 1 := by
  simp only [saveMessage]
  split <;> rfl

lemma saveMessageReq_nextId (db : HistoryDB) (now : Nat) (r : SaveReq) :
    (saveMessageReq db now r).nextId = db.nextId + 1 :=
  saveMessage_nextId db now r.sessionId r.role r.content r.sql r.resultCount r.success

lemma saveMessageReq_messages (db : HistoryDB) (now : Nat) (r : SaveReq) :
    (saveMessageReq db now r).messages
      = db.messages ++ [⟨db.nextId, r.sessionId, r.role, r.content, r.sql, r.resultCount,
          r.success, now⟩] :=
  saveMessage_messages db now r.sessionId r.role r.content r.sql r.resultCount r.success

/-- Claim C1: for any behaviour of the translator and of query execution —
including raised exceptions, modelled as `Except.error` — `process_message`
returns a `QueryResult` (no fault propagates); the turn either ends with no
error, success `true` and no error message, or it ends at HANDLE_ERROR with the
non-empty error appended as the assistant turn, success `false` and that
human-readable message surfaced to the caller. -/
theorem c1_turn_errors_contained (llm : String → Except String String)
    (exec : String → Except String DataFrame) (db : HistoryDB) (now : Nat)
    (dbPath : String) (schema : List (String × List String)) (user sid : String)
    (ex : Option (List Msg)) :
    ∃ (res : QueryResult) (db2 : HistoryDB),
      processMessage goodStore llm exec db now dbPath schema user sid ex = .ok (res, db2) ∧
      (((turnState llm exec dbPath schema db user sid ex).error = "" ∧
          res.success = true ∧ res.error = none) ∨
        ((turnState llm exec dbPath schema db user sid ex).error ≠ "" ∧
          res.success = false ∧
          res.error = some (turnState llm exec dbPath schema db user sid ex).error ∧
          (turnState llm exec dbPath schema db user sid ex).messages
            = (workingMessages db sid ex ++ [Msg.human user])
                ++ [Msg.ai ("Error: " ++ (turnState llm exec dbPath schema db user sid ex).error)])) := by
  rw [processMessage_goodStore]
  refine ⟨_, _, rfl, ?_⟩
  by_cases he : (turnState llm exec dbPath schema db user sid ex).error = ""
  · left
    exact ⟨he, by simp [turnResult, he], by simp [turnResult, he]⟩
  · right
    refine ⟨he, by simp [turnResult, he], by simp [turnResult, he], ?_⟩
    rcases runGraph_spec llm exec
        (initialState dbPath schema (workingMessages db sid ex ++ [Msg.human user]) sid) rfl rfl with
      ⟨he2, _⟩ | ⟨_, _, hm⟩
    · exact absurd he2 he
    · simpa [initialState] using hm

/-- Witness for C1: a translator that raises (`timeout`) still yields an `ok`
result with success `false` and the pipeline error surfaced. -/
theorem c1_turn_errors_contained_witness :
    ∃ (res : QueryResult) (db2 : HistoryDB),
      processMessage goodStore (fun _ => Except.error "timeout") (fun _ => Except.error "unused")
          emptyDB 0 "p" [] "hi" "s1" none = .ok (res, db2) ∧
      (((turnState (fun _ => Except.error "timeout") (fun _ => Except.error "unused")
            "p" [] emptyDB "hi" "s1" none).error = "" ∧
          res.success = true ∧ res.error = none) ∨
        ((turnState (fun _ => Except.error "timeout") (fun _ => Except.error "unused")
            "p" [] emptyDB "hi" "s1" none).error ≠ "" ∧
          res.success = false ∧
          res.error = some (turnState (fun _ => Except.error "timeout") (fun _ => Except.error "unused")
            "p" [] emptyDB "hi" "s1" none).error ∧
          (turnState (fun _ => Except.error "timeout") (fun _ => Except.error "unused")
            "p" [] emptyDB "hi" "s1" none).messages
            = (workingMessages emptyDB "s1" none ++ [Msg.human "hi"])
                ++ [Msg.ai ("Error: " ++ (turnState (fun _ => Except.error "timeout")
                    (fun _ => Except.error "unused") "p" [] emptyDB "hi" "s1" none).error)])) :=
  c1_turn_errors_contained _ _ _ _ _ _ _ _ _

/-- Claim C10: the returned `QueryResult.data` is never `None` — when the turn
produced no result table an empty table stands in — and the error field is
populated exactly when success is `false`. -/
theorem c10_result_fields (llm : String → Except String String)
    (exec : String → Except String DataFrame) (db : HistoryDB) (now : Nat)
    (dbPath : String) (schema : List (String × List String)) (user sid : String)
    (ex : Option (List Msg)) :
    ∃ (res : QueryResult) (db2 : HistoryDB),
      processMessage goodStore llm exec db now dbPath schema user sid ex = .ok (res, db2) ∧
      res.data = some ((turnState llm exec dbPath schema db user sid ex).lastResult.getD emptyDF) ∧
      res.data ≠ none ∧
      (res.error ≠ none ↔ res.success = false) ∧
      (res.success = false → res.data = some emptyDF) := by
  rw [processMessage_goodStore]
  refine ⟨_, _, rfl, rfl, by simp [turnResult], ?_, ?_⟩
  · by_cases he : (turnState llm exec dbPath schema db user sid ex).error = "" <;>
      simp [turnResult, he]
  · intro hs
    have he : (turnState llm exec dbPath schema db user sid ex).error ≠ "" := by
      intro he
      simp [turnResult, he] at hs
    rcases runGraph_spec llm exec
        (initialState dbPath schema (workingMessages db sid ex ++ [Msg.human user]) sid) rfl rfl with
      ⟨he2, _⟩ | ⟨_, hl, _⟩
    · exact absurd he2 he
    · simp only [turnResult]
      rw [show (turnState llm exec dbPath schema db user sid ex).lastResult = none from hl]
      rfl

/-- Witness for C10: a turn whose translation is unusable (`please clarify`)
still hands the caller an empty table and a populated error. -/
theorem c10_result_fields_witness :
    ∃ (res : QueryResult) (db2 : HistoryDB),
      processMessage goodStore (fun _ => Except.ok "please clarify") (fun _ => Except.error "nope")
          emptyDB 0 "p" [] "q" "s1" none = .ok (res, db2) ∧
      res.data = some ((turnState (fun _ => Except.ok "please clarify")
          (fun _ => Except.error "nope") "p" [] emptyDB "q" "s1" none).lastResult.getD emptyDF) ∧
      res.data ≠ none ∧
      (res.error ≠ none ↔ res.success = false) ∧
      (res.success = false → res.data = some emptyDF) :=
  c10_result_fields _ _ _ _ _ _ _ _ _

/-- Claim C5, counterexample: a turn whose translator returns `DELETE FROM t`
fails validation, yet `process_message` persists the assistant message with the
non-null SQL field `DELETE FROM t` — a SQL string that did not pass the
SELECT/FROM validation. -/
theorem c5_counterexample :
    ((processMessage goodStore (fun _ => Except.ok "DELETE FROM t") (fun _ => Except.error "unused")
        emptyDB 5 "p" [] "show all" "s1" none).toOption.map
      (fun p => p.2.messages.map (fun m => (m.role, m.sqlQuery, m.success))))
      = some [("user", none, true), ("assistant", some "DELETE FROM t", false)] ∧
    validateSql "DELETE FROM t" = some selectReason := by
  constructor
  · decide
  · decide

/-- Claim C5 (amended: only on successful turns): every assistant message
persisted by a successful `process_message` turn carries a SQL string that
passed the SELECT/FROM validation; on failed turns the stored SQL field is
still non-null but may hold an invalid or empty string. -/
theorem c5_amended_validated_sql_on_success (llm : String → Except String String)
    (exec : String → Except String DataFrame) (db : HistoryDB) (now : Nat)
    (dbPath : String) (schema : List (String × List String)) (user sid : String)
    (ex : Option (List Msg)) (res : QueryResult) (db2 : HistoryDB)
    (h : processMessage goodStore llm exec db now dbPath schema user sid ex = .ok (res, db2))
    (hs : res.success = true) :
    ∃ row : MessageRow, db2.messages.getLast? = some row ∧
      row.role = "assistant" ∧ row.sqlQuery = some res.sql ∧ validateSql res.sql = none := by
  rw [processMessage_goodStore] at h
  simp only [Except.ok.injEq, Prod.mk.injEq] at h
  obtain ⟨hres, hdb⟩ := h
  subst hres
  subst hdb
  have ht : (turnState llm exec dbPath schema db user sid ex).error = "" := by
    have hs2 : ((turnState llm exec dbPath schema db user sid ex).error = "" : Bool) = true := hs
    exact of_decide_eq_true hs2
  rcases runGraph_spec llm exec
      (initialState dbPath schema (workingMessages db sid ex ++ [Msg.human user]) sid) rfl rfl with
    ⟨_, hval, df, hsome, _⟩ | ⟨hne, _, _⟩
  · have hmsg : (saveMessageReq (saveMessageReq db now ⟨sid, "user", user, none, 0, true⟩) now
        (assistantReq sid (turnState llm exec dbPath schema db user sid ex))).messages.getLast?
        = some ⟨(saveMessageReq db now ⟨sid, "user", user, none, 0, true⟩).nextId,
            (assistantReq sid (turnState llm exec dbPath schema db user sid ex)).sessionId,
            (assistantReq sid (turnState llm exec dbPath schema db user sid ex)).role,
            (assistantReq sid (turnState llm exec dbPath schema db user sid ex)).content,
            (assistantReq sid (turnState llm exec dbPath schema db user sid ex)).sql,
            (assistantReq sid (turnState llm exec dbPath schema db user sid ex)).resultCount,
            (assistantReq sid (turnState llm exec dbPath schema db user sid ex)).success,
            now⟩ := by
      rw [saveMessageReq_messages]
      exact List.getLast?_concat _
    exact ⟨_, hmsg, assistantReq_role sid _, assistantReq_sql sid _, hval⟩
  · exact absurd ht hne

/-- Witness for the amended C5: a concrete successful turn; its persisted
assistant row carries `SELECT x FROM t`, which passes validation. -/
theorem c5_amended_validated_sql_on_success_witness :
    ∃ row : MessageRow,
      (saveMessageReq (saveMessageReq emptyDB 5 ⟨"s1", "user", "show all", none, 0, true⟩) 5
          (assistantReq "s1" (turnState (fun _ => Except.ok "SELECT x FROM t")
            (fun _ => Except.ok ⟨["x"], [["1"]]⟩) "p" [] emptyDB "show all" "s1" none))).messages.getLast?
        = some row ∧
      row.role = "assistant" ∧
      row.sqlQuery = some (turnResult "show all" 5 (turnState (fun _ => Except.ok "SELECT x FROM t")
          (fun _ => Except.ok ⟨["x"], [["1"]]⟩) "p" [] emptyDB "show all" "s1" none)).sql ∧
      validateSql (turnResult "show all" 5 (turnState (fun _ => Except.ok "SELECT x FROM t")
          (fun _ => Except.ok ⟨["x"], [["1"]]⟩) "p" [] emptyDB "show all" "s1" none)).sql = none :=
  c5_amended_validated_sql_on_success (fun _ => Except.ok "SELECT x FROM t")
    (fun _ => Except.ok ⟨["x"], [["1"]]⟩) emptyDB 5 "p" [] "show all" "s1" none _ _
    (processMessage_goodStore _ _ _ _ _ _ _ _ _) (by decide)

/-- Claim C8, counterexample: `if existing_messages:` is Python truthiness, so a
caller-supplied *empty* in-memory history is not used — the working list is
loaded from the persisted session instead. -/
theorem c8_counterexample :
    workingMessages (saveMessage emptyDB 0 "s1" "user" "hello" none 0 true) "s1" (some [])
      = [Msg.human "hello"] ∧
    [Msg.human "hello"] ≠ ([] : List Msg) := by
  constructor
  · decide
  · decide

/-- Claim C8 (amended: a caller-supplied history is used only when non-empty;
an absent or empty one falls back to the last 10 persisted messages): the
working list resolution; the user turn is always persisted; the assistant turn
is persisted with its SQL, result count and success flag regardless of outcome;
and the returned success flag is `true` exactly when the terminal state carries
no error. -/
theorem c8_amended_orchestration (llm : String → Except String String)
    (exec : String → Except String DataFrame) (db : HistoryDB) (now : Nat)
    (dbPath : String) (schema : List (String × List String)) (user sid : String)
    (ex : Option (List Msg)) :
    workingMessages db sid ex
      = (match ex with
         | some l => if !l.isEmpty then l
             else (takeLast 10 (loadSessionHistory db sid)).filterMap msgOfRow
         | none => (takeLast 10 (loadSessionHistory db sid)).filterMap msgOfRow) ∧
    ∃ (res : QueryResult) (db2 : HistoryDB),
      processMessage goodStore llm exec db now dbPath schema user sid ex = .ok (res, db2) ∧
      db2.messages
        = db.messages
            ++ [⟨db.nextId, sid, "user", user, none, 0, true, now⟩,
                ⟨db.nextId + 1, sid, "assistant",
                  (assistantReq sid (turnState llm exec dbPath schema db user sid ex)).content,
                  (assistantReq sid (turnState llm exec dbPath schema db user sid ex)).sql,
                  (assistantReq sid (turnState llm exec dbPath schema db user sid ex)).resultCount,
                  (assistantReq sid (turnState llm exec dbPath schema db user sid ex)).success,
                  now⟩] ∧
      (assistantReq sid (turnState llm exec dbPath schema db user sid ex)).sql
        = some (turnState llm exec dbPath schema db user sid ex).lastSql ∧
      (res.success = true ↔ (turnState llm exec dbPath schema db user sid ex).error = "") := by
  refine ⟨by cases ex <;> rfl, ?_⟩
  rw [processMessage_goodStore]
  refine ⟨_, _, rfl, ?_, assistantReq_sql _ _, ?_⟩
  · rw [saveMessageReq_messages, saveMessageReq_messages, saveMessageReq_nextId]
    simp [assistantReq_sessionId, assistantReq_role]
  · constructor
    · intro hs
      exact of_decide_eq_true hs
    · intro he
      simp [turnResult, he]

/-- Witness for the amended C8 at a concrete turn on a store with one prior
session message. -/
theorem c8_amended_orchestration_witness :
    workingMessages (saveMessage emptyDB 0 "s1" "user" "hello" none 0 true) "s1" (some [])
      = (match (some [] : Option (List Msg)) with
         | some l => if !l.isEmpty then l
             else (takeLast 10 (loadSessionHistory
                 (saveMessage emptyDB 0 "s1" "user" "hello" none 0 true) "s1")).filterMap msgOfRow
         | none => (takeLast 10 (loadSessionHistory
             (saveMessage emptyDB 0 "s1" "user" "hello" none 0 true) "s1")).filterMap msgOfRow) ∧
    ∃ (res : QueryResult) (db2 : HistoryDB),
      processMessage goodStore (fun _ => Except.ok "SELECT x FROM t")
          (fun _ => Except.ok ⟨["x"], [["1"]]⟩)
          (saveMessage emptyDB 0 "s1" "user" "hello" none 0 true) 7 "p" [] "next question" "s1"
          (some []) = .ok (res, db2) ∧
      db2.messages
        = (saveMessage emptyDB 0 "s1" "user" "hello" none 0 true).messages
            ++ [⟨(saveMessage emptyDB 0 "s1" "user" "hello" none 0 true).nextId, "s1", "user",
                  "next question", none, 0, true, 7⟩,
                ⟨(saveMessage emptyDB 0 "s1" "user" "hello" none 0 true).nextId + 1, "s1",
                  "assistant",
                  (assistantReq "s1" (turnState (fun _ => Except.ok "SELECT x FROM t")
                    (fun _ => Except.ok ⟨["x"], [["1"]]⟩)
                    "p" [] (saveMessage emptyDB 0 "s1" "user" "hello" none 0 true)
                    "next question" "s1" (some []))).content,
                  (assistantReq "s1" (turnState (fun _ => Except.ok "SELECT x FROM t")
                    (fun _ => Except.ok ⟨["x"], [["1"]]⟩)
                    "p" [] (saveMessage emptyDB 0 "s1" "user" "hello" none 0 true)
                    "next question" "s1" (some []))).sql,
                  (assistantReq "s1" (turnState (fun _ => Except.ok "SELECT x FROM t")
                    (fun _ => Except.ok ⟨["x"], [["1"]]⟩)
                    "p" [] (saveMessage emptyDB 0 "s1" "user" "hello" none 0 true)
                    "next question" "s1" (some []))).resultCount,
                  (assistantReq "s1" (turnState (fun _ => Except.ok "SELECT x FROM t")
                    (fun _ => Except.ok ⟨["x"], [["1"]]⟩)
                    "p" [] (saveMessage emptyDB 0 "s1" "user" "hello" none 0 true)
                    "next question" "s1" (some []))).success,
                  7⟩] ∧
      (assistantReq "s1" (turnState (fun _ => Except.ok "SELECT x FROM t")
          (fun _ => Except.ok ⟨["x"], [["1"]]⟩)
          "p" [] (saveMessage emptyDB 0 "s1" "user" "hello" none 0 true)
          "next question" "s1" (some []))).sql
        = some (turnState (fun _ => Except.ok "SELECT x FROM t")
            (fun _ => Except.ok ⟨["x"], [["1"]]⟩)
            "p" [] (saveMessage emptyDB 0 "s1" "user" "hello" none 0 true)
            "next question" "s1" (some [])).lastSql ∧
      (res.success = true ↔ (turnState (fun _ => Except.ok "SELECT x FROM t")
          (fun _ => Except.ok ⟨["x"], [["1"]]⟩)
          "p" [] (saveMessage emptyDB 0 "s1" "user" "hello" none 0 true)
          "next question" "s1" (some [])).error = "") :=
  c8_amended_orchestration _ _ _ _ _ _ _ _ _

/-- Claim C4, counterexample: an otherwise fully successful turn (the graph
terminates with no error) whose history write raises is aborted — the store
error propagates out of `process_message` instead of being caught at the
operation boundary. -/
theorem c4_counterexample :
    processMessage (failingStore "disk full") (fun _ => Except.ok "SELECT x FROM t")
        (fun _ => Except.ok ⟨["x"], [["1"]]⟩) emptyDB 0 "p" [] "hi" "s1" none
      = .error "disk full" ∧
    (turnState (fun _ => Except.ok "SELECT x FROM t") (fun _ => Except.ok ⟨["x"], [["1"]]⟩)
        "p" [] emptyDB "hi" "s1" none).error = "" := by
  constructor
  · rfl
  · decide

/-- Claim C4 (amended: only `delete_session` catches store errors at its
boundary and reports a boolean; the history *write* (`save_message`) has no
try/except, so a raising store layer propagates out of `process_message` and
aborts the turn, whatever the translator and executor did). -/
theorem c4_amended_store_error_propagation :
    (∀ (m : String) (llm : String → Except String String)
        (exec : String → Except String DataFrame) (db : HistoryDB) (now : Nat)
        (dbPath : String) (schema : List (String × List String)) (user sid : String)
        (ex : Option (List Msg)),
      processMessage (failingStore m) llm exec db now dbPath schema user sid ex
        = .error m) ∧
    (∀ (m : String) (db : HistoryDB) (sid : String),
      deleteSession (fun _ _ => Except.error m) db sid = (db, false)) ∧
    (∀ (db : HistoryDB) (sid : String),
      deleteSession (fun d s => Except.ok (deleteSessionRows d s)) db sid
        = (deleteSessionRows db sid, true)) :=
  ⟨fun _ _ _ _ _ _ _ _ _ _ => rfl, fun _ _ _ => rfl, fun _ _ => rfl⟩

end EcomAgent
